import Mathlib

/-!
Verification of the identity-resolution and access-scoping logic of the
school-management backend (Express + Prisma). The definitions below are a
shallow embedding of the TypeScript source: each Prisma query becomes a pure
function over an explicit database value, and each route handler's
scope/authorization logic becomes a function from the database, the resolved
role/profile and the request parameters to a response value. Query parameters
that are orthogonal to scoping (date ranges, `examId`, result limits) are not
modelled; the branching on roles and on the requested-id parameters follows
the source line by line.
-/

namespace SchoolApi

/-- The closed role enumeration (`userRole` strings in the source). -/
inductive Role where
  | student
  | teacher
  | parent
  | admin
  | accountant
deriving DecidableEq

/-- A row of the `Student` collection. `id` is the Clerk external id used as
internal id; `StudentId` is the separate human-readable identifier;
`parentId` is the parent-reference. -/
structure Student where
  id : String
  StudentId : String
  parentId : String
deriving DecidableEq

/-- A row of the `Teacher` collection. -/
structure Teacher where
  id : String
deriving DecidableEq

/-- A row of the `Parent` collection. -/
structure Parent where
  id : String
deriving DecidableEq

/-- A row of the `Admin` collection. -/
structure Admin where
  id : String
deriving DecidableEq

/-- A row of the `Accountant` collection. -/
structure Accountant where
  id : String
deriving DecidableEq

/-- A row of the `Class` collection: exactly one supervising teacher. -/
structure Class where
  id : Nat
  supervisorId : String
deriving DecidableEq

/-- A row of the `Enrollment` collection (the `class.students` relation).
`studentId` references `Student.StudentId` (the human-readable id space), as
witnessed by `enrollment.findFirst({ where: { studentId: userProfile.StudentId } })`
in the notifications and exams routers. -/
structure Enrollment where
  studentId : String
  classId : Nat
  leftAt : Option Nat
deriving DecidableEq

/-- A row of the `Lesson` collection: a teaching assignment of a teacher to
a class. -/
structure Lesson where
  id : Nat
  teacherId : String
  classId : Nat
deriving DecidableEq

/-- Fee status strings used by the fees router. -/
inductive FeeStatus where
  | PAID
  | UNPAID
  | PARTIAL
  | OVERDUE
deriving DecidableEq

/-- A row of the `Fee` collection. Amounts are BigInt in the source. -/
structure Fee where
  id : Nat
  studentId : String
  totalAmount : Int
  paidAmount : Int
  status : FeeStatus
deriving DecidableEq

/-- A row of the `Attendance` collection. `studentId` references
`Student.id` (the parents router filters it by `child.id`). -/
structure AttendanceRec where
  studentId : String
  classId : Nat
  status : String
deriving DecidableEq

/-- A row of the `Result` collection; `studentId` references `Student.id`
(comment in the exams router: "Results.studentId references Student.id"). -/
structure ResultRec where
  studentId : String
  score : Nat
deriving DecidableEq

/-- The slice of the Prisma database the scoping logic reads. -/
structure DB where
  students : List Student
  teachers : List Teacher
  parents : List Parent
  admins : List Admin
  accountants : List Accountant
  classes : List Class
  enrollments : List Enrollment
  lessons : List Lesson
  fees : List Fee
  attendances : List AttendanceRec
  results : List ResultRec
deriving DecidableEq

/-- `prisma.student.findFirst({ where: { id } })`. -/
def findStudentById (db : DB) (uid : String) : Option Student :=
  db.students.find? (fun s => s.id == uid)

/-- `prisma.teacher.findFirst({ where: { id } })`. -/
def findTeacherById (db : DB) (uid : String) : Option Teacher :=
  db.teachers.find? (fun t => t.id == uid)

/-- `prisma.parent.findFirst({ where: { id } })`. -/
def findParentById (db : DB) (uid : String) : Option Parent :=
  db.parents.find? (fun p => p.id == uid)

/-- `prisma.admin.findFirst({ where: { id } })`. -/
def findAdminById (db : DB) (uid : String) : Option Admin :=
  db.admins.find? (fun a => a.id == uid)

/-- `prisma.accountant.findFirst({ where: { id } })`. -/
def findAccountantById (db : DB) (uid : String) : Option Accountant :=
  db.accountants.find? (fun a => a.id == uid)

/-- `prisma.student.findMany({ where: { parentId } })`. -/
def childrenOf (db : DB) (pid : String) : List Student :=
  db.students.filter (fun s => s.parentId == pid)

/-- `prisma.class.findMany({ where: { supervisorId } })`. -/
def supervisedClasses (db : DB) (tid : String) : List Class :=
  db.classes.filter (fun c => c.supervisorId == tid)

/-- The `students` (enrollment) relation included on a class. -/
def classEnrollments (db : DB) (c : Class) : List Enrollment :=
  db.enrollments.filter (fun e => e.classId == c.id)

/-- The `student` relation included on an enrollment: joins
`Enrollment.studentId` to `Student.StudentId`. -/
def enrollmentStudent (db : DB) (e : Enrollment) : Option Student :=
  db.students.find? (fun s => s.StudentId == e.studentId)

/-! ## Profile resolution (`getUserProfile` middleware, Clerk variant)

The middleware looks the Clerk user id up as the internal `id` in the five
profile collections (student, teacher, parent, admin, accountant, in that
textual order of `if`/`else if` branches), and on no match falls back to the
Clerk public-metadata role hint. -/

/-- The Clerk user record the fallback branch fetches
(`clerkClient.users.getUser`); only the public-metadata role matters here. -/
structure ClerkUser where
  metadataRole : Option String
deriving DecidableEq

/-- The string-to-role check
`['student','teacher','parent','admin','accountant'].includes(publicRole)`. -/
def roleOfString (s : String) : Option Role :=
  if s == "student" then some .student
  else if s == "teacher" then some .teacher
  else if s == "parent" then some .parent
  else if s == "admin" then some .admin
  else if s == "accountant" then some .accountant
  else none

/-- JavaScript `toLowerCase`, modelled characterwise (the library
`String.toLower` is defined by well-founded recursion and does not reduce
inside `decide`). -/
def jsToLowerCase (s : String) : String :=
  ⟨s.data.map Char.toLower⟩

/-- The role hint extracted from Clerk metadata:
`(clerkUser.publicMetadata?.role as string | undefined)?.toLowerCase()`
followed by the membership test.  An absent or empty role yields `none`. -/
def metadataRoleHint (cu : ClerkUser) : Option Role :=
  cu.metadataRole.bind (fun r => roleOfString (jsToLowerCase r))

/-- Outcome of the `getUserProfile` middleware: either the request proceeds
with a resolved role (`profileId` is the attached profile's `id` field when
one exists, `synthesized` marks the temporary non-persisted profile of the
metadata fallback), or it terminates with the given HTTP error. -/
inductive ProfileResolution where
  | ok (role : Role) (profileId : Option String) (synthesized : Bool)
  | unauthenticated401
  | notFound404
  | serverError500
deriving DecidableEq

/-- The HTTP status the middleware responds with, `none` when it calls
`next()`. -/
def ProfileResolution.httpStatus : ProfileResolution → Option Nat
  | .ok _ _ _ => none
  | .unauthenticated401 => some 401
  | .notFound404 => some 404
  | .serverError500 => some 500

/-- Shallow embedding of the `getUserProfile` middleware. `provider`
models `clerkClient.users.getUser` (`none` = the call throws, mapped to
500). The five collections are probed in source order; on no match the
Clerk metadata role hint is consulted; with a `student` hint the student
collection is probed again and otherwise a temporary profile without an
internal id is synthesized; with no usable hint the middleware responds 404. -/
def getUserProfile (db : DB) (provider : String → Option ClerkUser)
    (userId : Option String) : ProfileResolution :=
  match userId with
  | none => .unauthenticated401
  | some uid =>
    match findStudentById db uid with
    | some s => .ok .student (some s.id) false
    | none =>
    match findTeacherById db uid with
    | some t => .ok .teacher (some t.id) false
    | none =>
    match findParentById db uid with
    | some p => .ok .parent (some p.id) false
    | none =>
    match findAdminById db uid with
    | some a => .ok .admin (some a.id) false
    | none =>
    match findAccountantById db uid with
    | some a => .ok .accountant (some a.id) false
    | none =>
      match provider uid with
      | none => .serverError500
      | some cu =>
        match metadataRoleHint cu with
        | some .student =>
          match findStudentById db uid with
          | some s => .ok .student (some s.id) false
          | none => .ok .student (some uid) true
        | some r => .ok r none true
        | none => .notFound404

/-- Whether the collection for role `r` holds a profile whose internal id is
`uid` — the per-collection lookup the resolver runs. -/
def hasProfile (db : DB) (r : Role) (uid : String) : Bool :=
  match r with
  | .student => (findStudentById db uid).isSome
  | .teacher => (findTeacherById db uid).isSome
  | .parent => (findParentById db uid).isSome
  | .admin => (findAdminById db uid).isSome
  | .accountant => (findAccountantById db uid).isSome

/-- The documented fixed priority order of the five profile collections. -/
def roleOrder : List Role :=
  [.student, .teacher, .parent, .admin, .accountant]

/-- Resolution as the spec words it: the first collection in the fixed
priority order that contains a match wins. -/
def resolveBySpec (db : DB) (uid : String) : Option Role :=
  roleOrder.find? (fun r => hasProfile db r uid)

/-! ## Credential verification (`requireAuth`, JWT-first variant) -/

/-- The payload of a locally signed JWT (`jwt.verify` result); `role` and
`email` are whatever claims were embedded at issuance. -/
structure JwtPayload where
  userId : String
  role : Option String
  email : Option String
deriving DecidableEq

/-- Outcome of the `requireAuth` middleware: `next()` with the request's
`userId`/`userRole` fields set, or a 401 response. -/
inductive AuthOutcome where
  | proceed (userId : String) (role : Option String)
  | unauthorized401
deriving DecidableEq

/-- `authHeader.startsWith('Bearer ')`, modelled over the character list
(the library `String.startsWith` is compiled code that does not reduce
inside `decide`). -/
def hasBearerPrefix (h : String) : Bool :=
  "Bearer ".data.isPrefixOf h.data

/-- `authHeader.substring(7)` — the token after the `Bearer ` prefix. -/
def bearerToken (h : String) : String :=
  ⟨h.data.drop 7⟩

/-- Shallow embedding of `requireAuth`: reject when the authorization header
is missing or lacks the `Bearer ` prefix; otherwise try local JWT
verification first (`jwtVerify`, `none` = `jwt.verify` throws) taking the
role from the signed payload, and only on its failure fall back to Clerk
(`clerkAuth` models `getAuth`, `Except.error` = the call throws, `ok none` =
no user id in the session), which carries no role claim. 401 when both fail. -/
def requireAuth (jwtVerify : String → Option JwtPayload)
    (clerkAuth : Except Unit (Option String))
    (authHeader : Option String) : AuthOutcome :=
  match authHeader with
  | none => .unauthorized401
  | some h =>
    if hasBearerPrefix h then
      match jwtVerify (bearerToken h) with
      | some payload => .proceed payload.userId payload.role
      | none =>
        match clerkAuth with
        | .ok (some uid) => .proceed uid none
        | .ok none => .unauthorized401
        | .error _ => .unauthorized401
    else .unauthorized401

/-- Whether a bearer credential was supplied at all: a header present and
starting with `Bearer `. -/
def bearerSupplied (authHeader : Option String) : Prop :=
  ∃ h, authHeader = some h ∧ hasBearerPrefix h = true

/-! ## Login (`POST /login`, step 3 and 4) -/

/-- The Clerk account record the login endpoint reads after password
verification: the external id, the optional public-metadata role, and the
optional primary email address. -/
structure ClerkAccount where
  id : String
  metadataRole : Option String
  email : Option String
deriving DecidableEq

/-- `const role = (user.publicMetadata?.role as string) || 'student'` —
JavaScript `||` also replaces an empty string. -/
def loginRole (metadataRole : Option String) : String :=
  match metadataRole with
  | none => "student"
  | some r => if r == "" then "student" else r

/-- The JWT payload the login endpoint signs:
`{ userId: user.id, email: emailAddress || email, role: role }`. -/
def loginJwtPayload (user : ClerkAccount) (requestEmail : String) : JwtPayload :=
  { userId := user.id
    role := some (loginRole user.metadataRole)
    email := some (user.email.getD requestEmail) }

/-! ## Route responses -/

/-- An HTTP response: a JSON success payload or an error status. -/
inductive Resp (α : Type) where
  | ok (data : α)
  | err (status : Nat)
deriving DecidableEq

/-! ## Fees router -/

/-- The `targetStudentIds` computation of `GET /fees/history` (identical in
`GET /fees/pending`): student → self id; parent → children ids;
admin/accountant → the requested id if supplied, else all student ids;
teacher → no branch, the list stays empty. -/
def feesHistoryTargetIds (db : DB) (role : Role) (profileId : String)
    (studentIdQ : Option String) : List String :=
  match role with
  | .student => [profileId]
  | .parent => (childrenOf db profileId).map (·.id)
  | .admin | .accountant =>
    match studentIdQ with
    | some sid => [sid]
    | none => db.students.map (·.id)
  | .teacher => []

/-- Shallow embedding of `GET /fees/history`: empty target list returns an
empty success; otherwise the fee query filters on
`studentId ? [studentId] : targetStudentIds`. -/
def feesHistoryRoute (db : DB) (role : Role) (profileId : String)
    (studentIdQ : Option String) : Resp (List Fee) :=
  let target := feesHistoryTargetIds db role profileId studentIdQ
  if target.isEmpty then .ok []
  else
    let filterIds := match studentIdQ with
      | some sid => [sid]
      | none => target
    .ok (db.fees.filter (fun f => filterIds.contains f.studentId))

/-- `newPaidAmount = fee.paidAmount + BigInt(amount)` and
`newStatus = newPaidAmount >= fee.totalAmount ? 'PAID' : 'PARTIAL'`,
written back onto the fee by `prisma.fee.update` (only `paidAmount` and
`status` are in the update's `data`). -/
def applyPayment (fee : Fee) (amount : Int) : Fee :=
  { fee with
    paidAmount := fee.paidAmount + amount
    status := if fee.paidAmount + amount ≥ fee.totalAmount then .PAID else .PARTIAL }

/-- The fee-access lookup of `POST /fees/payment`: a student may pay own
fees (`findFirst({ id: feeId, studentId: profile.id })`), a parent the fees
of students whose `parentId` is the parent (`studentId in children`); any
other role leaves `fee` undefined. -/
def feeAccessLookup (db : DB) (role : Role) (profileId : String)
    (feeId : Nat) : Option Fee :=
  match role with
  | .student => db.fees.find? (fun f => f.id == feeId && f.studentId == profileId)
  | .parent =>
    let childIds := (childrenOf db profileId).map (·.id)
    db.fees.find? (fun f => f.id == feeId && childIds.contains f.studentId)
  | _ => none

/-- Shallow embedding of `POST /fees/payment` (after the
`requireRole(['student','parent'])` gate): a missing or out-of-scope fee is
answered with status 404 ("Fee not found or access denied"); otherwise the
payment is recorded and the updated fee returned. -/
def paymentRoute (db : DB) (role : Role) (profileId : String)
    (feeId : Nat) (amount : Int) : Resp Fee :=
  match feeAccessLookup db role profileId feeId with
  | none => .err 404
  | some fee => .ok (applyPayment fee amount)

/-! ## Exams router -/

/-- The `targetStudentIds` computation of `GET /exams/results`: student →
self; parent → children; teacher → students of *supervised* classes only
(mapped through the enrollment's `student.id`); admin → requested id or all;
accountant → no branch, the list stays empty. -/
def examResultsTargetIds (db : DB) (role : Role) (profileId : String)
    (studentIdQ : Option String) : List String :=
  match role with
  | .student => [profileId]
  | .parent => (childrenOf db profileId).map (·.id)
  | .teacher =>
    (supervisedClasses db profileId).flatMap (fun c =>
      (classEnrollments db c).filterMap (fun e => (enrollmentStudent db e).map (·.id)))
  | .admin =>
    match studentIdQ with
    | some sid => [sid]
    | none => db.students.map (·.id)
  | .accountant => []

/-- Shallow embedding of `GET /exams/results` (the orthogonal `examId`
filter is not modelled): empty target list returns an empty success;
otherwise the result query filters on
`studentId ? [studentId] : targetStudentIds`. -/
def examResultsRoute (db : DB) (role : Role) (profileId : String)
    (studentIdQ : Option String) : Resp (List ResultRec) :=
  let target := examResultsTargetIds db role profileId studentIdQ
  if target.isEmpty then .ok []
  else
    let filterIds := match studentIdQ with
      | some sid => [sid]
      | none => target
    .ok (db.results.filter (fun r => filterIds.contains r.studentId))

/-! ## Attendance router -/

/-- The `targetStudentIds` computation of `GET /attendance/summary`
(identical in `GET /attendance/trend`): student → self; parent → children;
teacher → the raw `enrollment.studentId` values of *supervised* classes
only; admin → all student ids (this route takes no student-id parameter);
accountant → no branch, the list stays empty. -/
def attendanceSummaryTargetIds (db : DB) (role : Role) (profileId : String) :
    List String :=
  match role with
  | .student => [profileId]
  | .parent => (childrenOf db profileId).map (·.id)
  | .teacher =>
    (supervisedClasses db profileId).flatMap (fun c =>
      (classEnrollments db c).map (·.studentId))
  | .admin => db.students.map (·.id)
  | .accountant => []

/-! ## Teachers router -/

/-- The class query of `GET /teachers/classes`:
`where: { OR: [ { supervisorId: teacher.id }, { lessons: { some: { teacherId: teacher.id } } } ] }`
— the union of supervised and taught classes. -/
def teachersClassesRoute (db : DB) (teacherId : String) : List Class :=
  db.classes.filter (fun c =>
    c.supervisorId == teacherId
      || db.lessons.any (fun l => l.teacherId == teacherId && l.classId == c.id))

/-! ## Parents router -/

/-- Shallow embedding of `GET /parents/children/attendance` (date range and
limit parameters are not modelled): with no children the route returns an
empty success; otherwise the attendance query filters on
`childId ? [childId] : children ids` — there is no membership check on the
supplied `childId`. -/
def childrenAttendanceRoute (db : DB) (parentId : String)
    (childIdQ : Option String) : Resp (List AttendanceRec) :=
  let children := childrenOf db parentId
  if children.isEmpty then .ok []
  else
    let filterIds : List String := match childIdQ with
      | some c => [c]
      | none => children.map (·.id)
    .ok (db.attendances.filter (fun a => filterIds.contains a.studentId))

/-! ## Sample data for witnesses and counterexamples -/

/-- A database where the external id `u1` collides: it is the internal id of
both a student and a teacher record. -/
def cdb5 : DB :=
  { students := [{ id := "u1", StudentId := "S1", parentId := "p1" }]
    teachers := [{ id := "u1" }]
    parents := []
    admins := []
    accountants := []
    classes := []
    enrollments := []
    lessons := []
    fees := []
    attendances := []
    results := [] }

/-- An entirely empty database: the id `u2` matches no profile collection. -/
def cdb6 : DB :=
  { students := []
    teachers := []
    parents := []
    admins := []
    accountants := []
    classes := []
    enrollments := []
    lessons := []
    fees := []
    attendances := []
    results := [] }

/-! ## Claims -/

/-- C5: profile resolution looks the external id up as the internal id in
all five profile collections and, for every possible combination of matches,
returns the role of the first collection in the fixed priority order
student, teacher, parent, admin, accountant that contains a match, together
with that collection's record. -/
theorem claim_C5 (db : DB) (provider : String → Option ClerkUser) (uid : String)
    (r : Role) (h : resolveBySpec db uid = some r) :
    ∃ pid, getUserProfile db provider (some uid) = .ok r (some pid) false := by
  unfold resolveBySpec roleOrder at h
  unfold getUserProfile
  cases hs : findStudentById db uid <;>
    cases ht : findTeacherById db uid <;>
      cases hp : findParentById db uid <;>
        cases ha : findAdminById db uid <;>
          cases hc : findAccountantById db uid <;>
            simp_all [List.find?, hasProfile]

/-- Witness for C5: in `cdb5` the id `u1` matches both the student and the
teacher collection, and resolution returns the student record. -/
theorem claim_C5_witness :
    ∃ pid, getUserProfile cdb5 (fun _ => none) (some "u1") =
      .ok .student (some pid) false :=
  claim_C5 cdb5 (fun _ => none) "u1" .student (by decide)

/-- C6: a verified identity that matches no profile in any of the five
collections and whose provider metadata holds no valid role hint is
answered with the ProfileNotFound error (HTTP 404) — distinct from the 401
authentication failure — and no default-role profile is synthesized. -/
theorem claim_C6 (db : DB) (provider : String → Option ClerkUser) (uid : String)
    (cu : ClerkUser)
    (hnone : ∀ r, hasProfile db r uid = false)
    (hprov : provider uid = some cu)
    (hhint : metadataRoleHint cu = none) :
    getUserProfile db provider (some uid) = .notFound404 ∧
    (getUserProfile db provider (some uid)).httpStatus = some 404 ∧
    (getUserProfile db provider (some uid)).httpStatus ≠ some 401 ∧
    (∀ r pid syn, getUserProfile db provider (some uid) ≠ .ok r pid syn) := by
  have hs : findStudentById db uid = none := by
    have := hnone .student
    simp [hasProfile] at this
    exact Option.not_isSome_iff_eq_none.mp (by simp [this])
  have ht : findTeacherById db uid = none := by
    have := hnone .teacher
    simp [hasProfile] at this
    exact Option.not_isSome_iff_eq_none.mp (by simp [this])
  have hp : findParentById db uid = none := by
    have := hnone .parent
    simp [hasProfile] at this
    exact Option.not_isSome_iff_eq_none.mp (by simp [this])
  have ha : findAdminById db uid = none := by
    have := hnone .admin
    simp [hasProfile] at this
    exact Option.not_isSome_iff_eq_none.mp (by simp [this])
  have hc : findAccountantById db uid = none := by
    have := hnone .accountant
    simp [hasProfile] at this
    exact Option.not_isSome_iff_eq_none.mp (by simp [this])
  simp [getUserProfile, hs, ht, hp, ha, hc, hprov, hhint, ProfileResolution.httpStatus]

/-- Witness for C6: in the empty database, with a provider role hint that is
not one of the five roles, resolution of `u2` answers 404. -/
theorem claim_C6_witness :
    getUserProfile cdb6 (fun _ => some { metadataRole := some "ghost" }) (some "u2") =
      .notFound404 :=
  (claim_C6 cdb6 (fun _ => some { metadataRole := some "ghost" }) "u2"
    { metadataRole := some "ghost" }
    (fun r => by cases r <;> rfl) rfl (by decide)).1

/-- C7: credential verification tries local signature verification first and
consults the provider only when the local path fails (on local success the
outcome does not depend on the provider at all, and the role is taken from
the signed payload); the outcome is 401 exactly when no bearer credential
was supplied or both verification paths fail. -/
theorem claim_C7 (jwtVerify : String → Option JwtPayload)
    (clerkAuth clerkAuth' : Except Unit (Option String))
    (authHeader : Option String) :
    (∀ h p, authHeader = some h → hasBearerPrefix h = true →
        jwtVerify (bearerToken h) = some p →
        requireAuth jwtVerify clerkAuth authHeader = .proceed p.userId p.role ∧
        requireAuth jwtVerify clerkAuth authHeader =
          requireAuth jwtVerify clerkAuth' authHeader) ∧
    (requireAuth jwtVerify clerkAuth authHeader = .unauthorized401 ↔
      ¬ bearerSupplied authHeader ∨
        ∃ h, authHeader = some h ∧ hasBearerPrefix h = true ∧
          jwtVerify (bearerToken h) = none ∧
          (clerkAuth = .ok none ∨ clerkAuth = .error ())) := by
  constructor
  · rintro h p rfl hb hv
    constructor <;> simp [requireAuth, hb, hv]
  · cases authHeader with
    | none => simp [requireAuth, bearerSupplied]
    | some h =>
      by_cases hb : hasBearerPrefix h = true
      · cases hv : jwtVerify (bearerToken h) with
        | some p => simp [requireAuth, bearerSupplied, hb, hv]
        | none =>
          cases clerkAuth with
          | ok o => cases o <;> simp [requireAuth, bearerSupplied, hb, hv]
          | error e => cases e; simp [requireAuth, bearerSupplied, hb, hv]
      · simp [requireAuth, bearerSupplied, hb]

/-- Witness for C7: with a bearer header whose token locally verifies to a
teacher payload, the request proceeds as that teacher (whatever the
provider would have said). -/
theorem claim_C7_witness :
    requireAuth (fun _ => some { userId := "u1", role := some "teacher", email := none })
      (.ok none) (some "Bearer tok") = .proceed "u1" (some "teacher") :=
  ((claim_C7 (fun _ => some { userId := "u1", role := some "teacher", email := none })
      (.ok none) (.error ()) (some "Bearer tok")).1 "Bearer tok"
      { userId := "u1", role := some "teacher", email := none }
      rfl (by decide) rfl).1

/-- C9: the login endpoint always embeds a role claim in the signed token —
the provider metadata role when present, the literal "student" otherwise —
so an identity with no provider-side role obtains a token that authenticates
on the local path as a student rather than being rejected. -/
theorem claim_C9 (user : ClerkAccount) (requestEmail : String)
    (jwtVerify : String → Option JwtPayload)
    (clerkAuth : Except Unit (Option String)) (h : String)
    (hnorole : user.metadataRole = none)
    (hbearer : hasBearerPrefix h = true)
    (hverify : jwtVerify (bearerToken h) = some (loginJwtPayload user requestEmail)) :
    (loginJwtPayload user requestEmail).role = some "student" ∧
    requireAuth jwtVerify clerkAuth (some h) = .proceed user.id (some "student") := by
  have hrole : loginRole user.metadataRole = "student" := by
    simp [loginRole, hnorole]
  refine ⟨by simp [loginJwtPayload, hrole], ?_⟩
  simp [requireAuth, hbearer, hverify, loginJwtPayload, hrole]

/-- Witness for C9: a Clerk account `u9` without a metadata role logs in,
and the issued token authenticates locally as role "student". -/
theorem claim_C9_witness :
    requireAuth
      (fun _ => some (loginJwtPayload { id := "u9", metadataRole := none, email := none } "a@b"))
      (.error ()) (some "Bearer t9") = .proceed "u9" (some "student") :=
  (claim_C9 { id := "u9", metadataRole := none, email := none } "a@b"
    (fun _ => some (loginJwtPayload { id := "u9", metadataRole := none, email := none } "a@b"))
    (.error ()) "Bearer t9" rfl (by decide) rfl).2

/-- C10: a successful payment of amount `a` against an in-scope fee adds `a`
to the fee's paid amount, sets the status to PAID exactly when the new paid
amount reaches the total and to PARTIAL otherwise (never UNPAID or
OVERDUE, whatever the previous status), and leaves every other field of the
fee unchanged. -/
theorem claim_C10 (db : DB) (role : Role) (profileId : String) (feeId : Nat)
    (amount : Int) (fee : Fee)
    (hscope : feeAccessLookup db role profileId feeId = some fee) :
    paymentRoute db role profileId feeId amount = .ok (applyPayment fee amount) ∧
    (applyPayment fee amount).paidAmount = fee.paidAmount + amount ∧
    ((applyPayment fee amount).status = .PAID ↔
      fee.paidAmount + amount ≥ fee.totalAmount) ∧
    ((applyPayment fee amount).status = .PARTIAL ↔
      ¬ fee.paidAmount + amount ≥ fee.totalAmount) ∧
    (applyPayment fee amount).status ≠ .UNPAID ∧
    (applyPayment fee amount).status ≠ .OVERDUE ∧
    (applyPayment fee amount).id = fee.id ∧
    (applyPayment fee amount).studentId = fee.studentId ∧
    (applyPayment fee amount).totalAmount = fee.totalAmount := by
  refine ⟨by simp [paymentRoute, hscope], rfl, ?_, ?_, ?_, ?_, rfl, rfl, rfl⟩ <;>
    by_cases hge : fee.paidAmount + amount ≥ fee.totalAmount <;>
      simp [applyPayment, hge]

/-- The fee `cdb10` holds for student `s1`: 40 of 100 paid. -/
def cfee10 : Fee :=
  { id := 1, studentId := "s1", totalAmount := 100, paidAmount := 40
    status := .UNPAID }

/-- A database with one student `s1` owing the fee `cfee10`. -/
def cdb10 : DB :=
  { students := [{ id := "s1", StudentId := "S1", parentId := "p1" }]
    teachers := []
    parents := []
    admins := []
    accountants := []
    classes := []
    enrollments := []
    lessons := []
    fees := [cfee10]
    attendances := []
    results := [] }

/-- Witness for C10: student `s1` pays 60 against the in-scope fee. -/
theorem claim_C10_witness :
    paymentRoute cdb10 .student "s1" 1 60 = .ok (applyPayment cfee10 60) :=
  (claim_C10 cdb10 .student "s1" 1 60 cfee10 (by decide)).1

/-- A database with students `s1` and `s2` where only `s2` has a fee and an
exam result: the failing input for C1 is the student caller `s1` supplying
`?studentId=s2`. -/
def cdb1 : DB :=
  { students := [{ id := "s1", StudentId := "S1", parentId := "p1" },
                 { id := "s2", StudentId := "S2", parentId := "p2" }]
    teachers := []
    parents := []
    admins := []
    accountants := []
    classes := []
    enrollments := []
    lessons := []
    fees := [{ id := 1, studentId := "s2", totalAmount := 100, paidAmount := 0
               status := .UNPAID }]
    attendances := []
    results := [{ studentId := "s2", score := 50 }] }

/-- C1 (code bug): the per-route allow-list for a student caller is the
singleton of the student's own id, but the final query filter is
`studentId ? [studentId] : targetStudentIds`, so a student supplying
`?studentId=s2` reads `s2`'s fee and exam-result records: the requested-id
parameter does change which records a student caller can read. -/
theorem claim_C1 :
    feesHistoryTargetIds cdb1 .student "s1" (some "s2") = ["s1"] ∧
    feesHistoryRoute cdb1 .student "s1" (some "s2") =
      .ok [{ id := 1, studentId := "s2", totalAmount := 100, paidAmount := 0
             status := .UNPAID }] ∧
    feesHistoryRoute cdb1 .student "s1" none = .ok [] ∧
    examResultsRoute cdb1 .student "s1" (some "s2") =
      .ok [{ studentId := "s2", score := 50 }] ∧
    examResultsRoute cdb1 .student "s1" none = .ok [] := by decide

/-- C2: for a parent caller the computed scope is exactly the ids of the
students whose parent-reference is the parent; but a request naming a
student id outside that set is not rejected with 403: the payment route
answers 404 ("Fee not found or access denied"), and the children-attendance
route applies no membership check at all, returning exactly the named
student's records. -/
theorem claim_C2 (db : DB) (pid childId : String) (feeId : Nat) (amount : Int) :
    (∀ s, s ∈ (childrenOf db pid).map (·.id) ↔
      ∃ st, st ∈ db.students ∧ st.parentId = pid ∧ st.id = s) ∧
    ((∀ f, f ∈ db.fees → f.id = feeId →
        f.studentId ∉ (childrenOf db pid).map (·.id)) →
      paymentRoute db .parent pid feeId amount = .err 404) ∧
    ((childrenOf db pid).isEmpty = false →
      ∃ recs, childrenAttendanceRoute db pid (some childId) = .ok recs ∧
        ∀ a, a ∈ recs ↔ a ∈ db.attendances ∧ a.studentId = childId) := by
  refine ⟨?_, ?_, ?_⟩
  · intro s
    simp only [childrenOf, List.mem_map, List.mem_filter, beq_iff_eq]
    constructor
    · rintro ⟨st, ⟨hst, hpid⟩, hid⟩
      exact ⟨st, hst, hpid, hid⟩
    · rintro ⟨st, hst, hpid, hid⟩
      exact ⟨st, ⟨hst, hpid⟩, hid⟩
  · intro hout
    have hnone : feeAccessLookup db .parent pid feeId = none := by
      unfold feeAccessLookup
      rw [List.find?_eq_none]
      intro f hf
      simp only [Bool.and_eq_true, beq_iff_eq, not_and]
      intro h1 h2
      exact absurd (by simpa using h2) (hout f hf h1)
    simp [paymentRoute, hnone]
  · intro hne
    refine ⟨db.attendances.filter (fun a => [childId].contains a.studentId), ?_, ?_⟩
    · simp [childrenAttendanceRoute, hne]
    · intro a
      simp [List.mem_filter, List.contains_cons, eq_comm]

/-- A database where parent `p1` has the single child `c1`, while the other
student `c2` (child of `p0`) has an attendance record and a fee. -/
def cdb2 : DB :=
  { students := [{ id := "c1", StudentId := "C1", parentId := "p1" },
                 { id := "c2", StudentId := "C2", parentId := "p0" }]
    teachers := []
    parents := [{ id := "p1" }, { id := "p0" }]
    admins := []
    accountants := []
    classes := []
    enrollments := []
    lessons := []
    fees := [{ id := 2, studentId := "c2", totalAmount := 100, paidAmount := 0
               status := .UNPAID }]
    attendances := [{ studentId := "c2", classId := 1, status := "PRESENT" }]
    results := [] }

/-- Counterexample to C2 as stated: parent `p1` (children `{c1}`) requests
the student id `c2`. The children-attendance route returns `c2`'s records
with no rejection, and the payment route against `c2`'s fee answers 404 —
neither rejection is the claimed 403. -/
theorem claim_C2_cex :
    ((childrenOf cdb2 "p1").map (·.id) = ["c1"]) ∧
    childrenAttendanceRoute cdb2 "p1" (some "c2") =
      .ok [{ studentId := "c2", classId := 1, status := "PRESENT" }] ∧
    childrenAttendanceRoute cdb2 "p1" (some "c2") ≠ .err 403 ∧
    paymentRoute cdb2 .parent "p1" 2 10 = .err 404 ∧
    paymentRoute cdb2 .parent "p1" 2 10 ≠ .err 403 := by decide

/-- Witness for C2 (amended): in `cdb2` the out-of-scope payment request is
answered 404. -/
theorem claim_C2_witness :
    paymentRoute cdb2 .parent "p1" 2 10 = .err 404 :=
  (claim_C2 cdb2 "p1" "c2" 2 10).2.1 (by decide)

/-- C3 (amended): the union of supervised and taught classes appears only in
the teachers router's `GET /classes` query; the teacher scopes of the
attendance and exams routes are built from *supervised* classes only, so a
student enrolled only in a taught-but-not-supervised class is excluded
there. -/
theorem claim_C3 (db : DB) (tid sid : String) (c : Class) :
    (c ∈ teachersClassesRoute db tid ↔
      c ∈ db.classes ∧ (c.supervisorId = tid ∨
        ∃ l, l ∈ db.lessons ∧ l.teacherId = tid ∧ l.classId = c.id)) ∧
    (sid ∈ attendanceSummaryTargetIds db .teacher tid ↔
      ∃ k, k ∈ db.classes ∧ k.supervisorId = tid ∧
        ∃ e, e ∈ db.enrollments ∧ e.classId = k.id ∧ e.studentId = sid) ∧
    (sid ∈ examResultsTargetIds db .teacher tid none ↔
      ∃ k, k ∈ db.classes ∧ k.supervisorId = tid ∧
        ∃ e, e ∈ db.enrollments ∧ e.classId = k.id ∧
          ∃ s, enrollmentStudent db e = some s ∧ s.id = sid) := by
  refine ⟨?_, ?_, ?_⟩
  · simp only [teachersClassesRoute, List.mem_filter, Bool.or_eq_true,
      List.any_eq_true, Bool.and_eq_true, beq_iff_eq]
  · simp only [attendanceSummaryTargetIds, List.mem_flatMap,
      supervisedClasses, classEnrollments, List.mem_filter, List.mem_map,
      beq_iff_eq]
    constructor
    · rintro ⟨k, ⟨hk, hsup⟩, e, ⟨he, hcl⟩, hsid⟩
      exact ⟨k, hk, hsup, e, he, hcl, hsid⟩
    · rintro ⟨k, hk, hsup, e, he, hcl, hsid⟩
      exact ⟨k, ⟨hk, hsup⟩, e, ⟨he, hcl⟩, hsid⟩
  · simp only [examResultsTargetIds, List.mem_flatMap, supervisedClasses,
      classEnrollments, List.mem_filter, List.mem_filterMap,
      Option.map_eq_some', beq_iff_eq]
    constructor
    · rintro ⟨k, ⟨hk, hsup⟩, e, ⟨he, hcl⟩, s, hs, hsid⟩
      exact ⟨k, hk, hsup, e, he, hcl, s, hs, hsid⟩
    · rintro ⟨k, hk, hsup, e, he, hcl, s, hs, hsid⟩
      exact ⟨k, ⟨hk, hsup⟩, e, ⟨he, hcl⟩, s, hs, hsid⟩

/-- A database where teacher `t1` supervises class 1 (student `S1`) and
holds a lesson in class 2 (student `S2`) supervised by `t9`. -/
def cdb3 : DB :=
  { students := [{ id := "u1", StudentId := "S1", parentId := "p1" },
                 { id := "u2", StudentId := "S2", parentId := "p2" }]
    teachers := [{ id := "t1" }, { id := "t9" }]
    parents := []
    admins := []
    accountants := []
    classes := [{ id := 1, supervisorId := "t1" },
                { id := 2, supervisorId := "t9" }]
    enrollments := [{ studentId := "S1", classId := 1, leftAt := none },
                    { studentId := "S2", classId := 2, leftAt := none }]
    lessons := [{ id := 1, teacherId := "t1", classId := 2 }]
    fees := []
    attendances := []
    results := [] }

/-- Counterexample to C3 as stated: student `u2`/`S2` is enrolled only in
the class `t1` teaches but does not supervise. The teachers router's class
list contains both classes, yet the attendance and exams scopes of `t1`
exclude that student. -/
theorem claim_C3_cex :
    teachersClassesRoute cdb3 "t1" =
      [{ id := 1, supervisorId := "t1" }, { id := 2, supervisorId := "t9" }] ∧
    "u2" ∉ examResultsTargetIds cdb3 .teacher "t1" none ∧
    "S2" ∉ attendanceSummaryTargetIds cdb3 .teacher "t1" ∧
    (∃ l, l ∈ cdb3.lessons ∧ l.teacherId = "t1" ∧ l.classId = 2) ∧
    (∃ e, e ∈ cdb3.enrollments ∧ e.classId = 2 ∧ e.studentId = "S2") := by
  decide

/-- C4 (amended): the admin branches of the fees, attendance and exams
routes grant the full student universe with no requested id and exactly the
requested singleton otherwise (even for a nonexistent id); the accountant is
handled the same way only in the fees router — in the attendance and exams
routes no branch matches an accountant and the scope stays empty. -/
theorem claim_C4 (db : DB) (pid sid : String) :
    feesHistoryTargetIds db .admin pid none = db.students.map (·.id) ∧
    feesHistoryTargetIds db .accountant pid none = db.students.map (·.id) ∧
    feesHistoryTargetIds db .admin pid (some sid) = [sid] ∧
    feesHistoryTargetIds db .accountant pid (some sid) = [sid] ∧
    examResultsTargetIds db .admin pid none = db.students.map (·.id) ∧
    examResultsTargetIds db .admin pid (some sid) = [sid] ∧
    attendanceSummaryTargetIds db .admin pid = db.students.map (·.id) ∧
    attendanceSummaryTargetIds db .accountant pid = [] ∧
    examResultsTargetIds db .accountant pid none = [] ∧
    examResultsTargetIds db .accountant pid (some sid) = [] :=
  ⟨rfl, rfl, rfl, rfl, rfl, rfl, rfl, rfl, rfl, rfl⟩

/-- A database with one student, used to refute C4 as stated for the
accountant role. -/
def cdb4 : DB :=
  { students := [{ id := "s9", StudentId := "S9", parentId := "p9" }]
    teachers := []
    parents := []
    admins := []
    accountants := [{ id := "a1" }]
    classes := []
    enrollments := []
    lessons := []
    fees := []
    attendances := []
    results := [] }

/-- Counterexample to C4 as stated: an accountant caller in the attendance
and exams routes receives the empty scope, not the full student universe. -/
theorem claim_C4_cex :
    cdb4.students.map (·.id) = ["s9"] ∧
    attendanceSummaryTargetIds cdb4 .accountant "a1" = [] ∧
    attendanceSummaryTargetIds cdb4 .accountant "a1" ≠ cdb4.students.map (·.id) ∧
    examResultsTargetIds cdb4 .accountant "a1" none = [] ∧
    examResultsTargetIds cdb4 .accountant "a1" none ≠ cdb4.students.map (·.id) := by
  decide

/-- C8: the computed scope is a deterministic function of the role, the
profile id, the optional requested id and the relationship data (students,
classes, enrollments): any two computations over states that agree on the
relationship collections — in particular two successive computations with no
intervening mutation — yield identical scope lists. -/
theorem claim_C8 (db db' : DB) (role : Role) (pid : String)
    (sidQ : Option String)
    (hstu : db.students = db'.students)
    (hcls : db.classes = db'.classes)
    (henr : db.enrollments = db'.enrollments) :
    feesHistoryTargetIds db role pid sidQ = feesHistoryTargetIds db' role pid sidQ ∧
    attendanceSummaryTargetIds db role pid = attendanceSummaryTargetIds db' role pid ∧
    examResultsTargetIds db role pid sidQ = examResultsTargetIds db' role pid sidQ := by
  cases role <;>
    simp [feesHistoryTargetIds, attendanceSummaryTargetIds,
      examResultsTargetIds, childrenOf, supervisedClasses, classEnrollments,
      enrollmentStudent, hstu, hcls, henr]

/-- `cdb4` after an unrelated mutation (a new fee): the relationship data is
unchanged. -/
def cdb8 : DB :=
  { cdb4 with
    fees := [{ id := 7, studentId := "s9", totalAmount := 10, paidAmount := 0
               status := .UNPAID }] }

/-- Witness for C8: recomputing the attendance-summary scope after a fee was
inserted (no relationship mutation) yields the identical list. -/
theorem claim_C8_witness :
    attendanceSummaryTargetIds cdb4 .admin "a1" =
      attendanceSummaryTargetIds cdb8 .admin "a1" :=
  (claim_C8 cdb4 cdb8 .admin "a1" none rfl rfl rfl).2.1

end SchoolApi
